import Mathlib

/- Shallow embedding of `src/btw5-switch.py`, a linear command-line script that
   switches a Creative BT-W5 USB dongle between AptX Adaptive High Quality and
   Low Latency modes via one USB control transfer.

   The script is a straight-line sequence of checks and library calls with no
   loops.  We embed it as a pure function `run : Env → Outcome × List Event`:
   `Env` fixes every input the script reads from its surroundings (effective
   uid, command line, whether the device enumerates, whether the USB library
   calls succeed, what length the control transfer reports), `Outcome` is the
   termination class (each `sys.exit(...)` string path, the argparse usage
   exit, or normal completion), and the event list records, in order, each
   device-touching operation the script performed (enumeration, configuration
   retrieval, driver detach, the control transfer with its parameters and
   data, the success print, driver reattach, resource disposal). -/

/-- The two mode tokens accepted by the argparse `choices=['hq', 'll']`. -/
inductive Mode
  | hq
  | ll
deriving DecidableEq, Repr

/-- Line 53: `data_hq = [0x03, 0x5a, 0x6b, 0x03, 0x0a, 0x03, 0x40]`. -/
def data_hq : List Nat := [0x03, 0x5a, 0x6b, 0x03, 0x0a, 0x03, 0x40]

/-- Line 54: `data_ll = [0x03, 0x5a, 0x6b, 0x03, 0x0a, 0x03, 0x20]`. -/
def data_ll : List Nat := [0x03, 0x5a, 0x6b, 0x03, 0x0a, 0x03, 0x20]

/-- Lines 57-61: select the data array from the mode argument. -/
def modeData (m : Mode) : List Nat :=
  match m with
  | .hq => data_hq
  | .ll => data_ll

/-- Line 65: `data = list(itertools.chain(data, [0x00] * (65 - len(data))))` —
    the selected 7-byte array zero-padded to 65 bytes. -/
def payload (m : Mode) : List Nat :=
  modeData m ++ List.replicate (65 - (modeData m).length) 0x00

/-- Lines 25-27: argparse with one positional argument constrained to
    `choices=['hq', 'll']`.  Any other token, a missing token, or extra
    tokens make `parse_args` fail (argparse exits with status 2). -/
def parseMode (argv : List String) : Option Mode :=
  match argv with
  | [s] => if s = "hq" then some Mode.hq else if s = "ll" then some Mode.ll else none
  | _ => none

/-- The environment the script runs in: everything it observes from the OS,
    the command line and the USB stack. -/
structure Env where
  /-- `os.geteuid()` (line 21). -/
  euid : Nat
  /-- the command-line tokens after the program name (line 27). -/
  argv : List String
  /-- whether `usb.core.find(idVendor=0x041e, idProduct=0x3130)` returns a
      device (line 30). -/
  deviceFound : Bool
  /-- whether `get_active_configuration` / interface / endpoint retrieval
      (lines 36-39) succeeds. -/
  configOk : Bool
  /-- `dev.is_kernel_driver_active(i)` (line 45). -/
  kernelDriverActive : Bool
  /-- whether `dev.detach_kernel_driver(i)` (line 47) succeeds. -/
  detachOk : Bool
  /-- whether `dev.ctrl_transfer` (line 69) raises a transport-level
      `usb.core.USBError`. -/
  transferError : Bool
  /-- the transferred length `result` returned by `ctrl_transfer` when no
      transport error is raised (line 69). -/
  transferResult : Nat
  /-- whether `dev.attach_kernel_driver(i)` (line 79) succeeds. -/
  attachOk : Bool
deriving Repr

/-- The device-touching operations of the script, in the order the source
    performs them. -/
inductive Event
  /-- line 30: `usb.core.find(...)` device enumeration. -/
  | findDevice
  /-- lines 36-39: configuration / interface / endpoint retrieval. -/
  | getConfig
  /-- line 47: `dev.detach_kernel_driver(i)` attempt. -/
  | detachDriver
  /-- line 69: `dev.ctrl_transfer(bmRequestType, bRequest, wValue, wIndex,
      data)` attempt with its parameters and data stage. -/
  | ctrlTransfer (bmRequestType bRequest wValue wIndex : Nat) (data : List Nat)
  /-- line 72: `print("Mode switch successful.")`. -/
  | printSuccess
  /-- line 79: `dev.attach_kernel_driver(i)` attempt. -/
  | attachDriver
  /-- line 84: `usb.util.dispose_resources(dev)`. -/
  | disposeResources
deriving DecidableEq, Repr

/-- The termination class of one invocation: one constructor per
    `sys.exit(...)` call site, the argparse usage exit, and normal
    completion. -/
inductive Outcome
  /-- line 22: not running as root. -/
  | privilegeError
  /-- line 27: argparse rejects the command line. -/
  | usageError
  /-- line 32: `usb.core.find` returned `None`. -/
  | deviceNotFound
  /-- line 41: configuration retrieval raised. -/
  | configError
  /-- line 50: `detach_kernel_driver` raised. -/
  | detachError
  /-- line 74: the transfer raised or returned a length other than 65. -/
  | transferFailure
  /-- line 81: `attach_kernel_driver` raised. -/
  | reattachError
  /-- the script ran to the end of line 84. -/
  | success
deriving DecidableEq, Repr

/-- The process exit status for each outcome: `sys.exit(str)` exits with
    status 1, argparse's `parse_args` error exits with status 2, and falling
    off the end of the script exits with status 0. -/
def exitCode (o : Outcome) : Nat :=
  match o with
  | .success => 0
  | .usageError => 2
  | _ => 1

/-- Lines 44-84 of the script, reached once the privilege, usage, device and
    configuration checks have all passed: detach the kernel driver if it is
    active (line 45-50), send the control transfer with the mode payload
    (lines 68-74, failing when a transport error is raised or the returned
    length differs from `len(data) = 65`), reattach the driver exactly when
    it was detached (lines 77-81), and dispose the device resources
    (line 84).  The two branches on `kernelDriverActive` flatten the
    source's single `reattach` flag. -/
def deviceSteps (e : Env) (m : Mode) : Outcome × List Event :=
  if e.kernelDriverActive then
    if e.detachOk = false then
      (.detachError, [.findDevice, .getConfig, .detachDriver])
    else if e.transferError || e.transferResult != 65 then
      (.transferFailure, [.findDevice, .getConfig, .detachDriver,
        .ctrlTransfer 0x21 0x09 0x203 0x00 (payload m)])
    else if e.attachOk = false then
      (.reattachError, [.findDevice, .getConfig, .detachDriver,
        .ctrlTransfer 0x21 0x09 0x203 0x00 (payload m), .printSuccess,
        .attachDriver])
    else
      (.success, [.findDevice, .getConfig, .detachDriver,
        .ctrlTransfer 0x21 0x09 0x203 0x00 (payload m), .printSuccess,
        .attachDriver, .disposeResources])
  else
    if e.transferError || e.transferResult != 65 then
      (.transferFailure, [.findDevice, .getConfig,
        .ctrlTransfer 0x21 0x09 0x203 0x00 (payload m)])
    else
      (.success, [.findDevice, .getConfig,
        .ctrlTransfer 0x21 0x09 0x203 0x00 (payload m), .printSuccess,
        .disposeResources])

/-- The whole script: the privilege check (lines 21-22), argument parsing
    (lines 25-27), device enumeration (lines 30-32), configuration retrieval
    (lines 35-41), then `deviceSteps`.  Returns the termination class and the
    ordered trace of device-touching operations performed. -/
def run (e : Env) : Outcome × List Event :=
  if e.euid ≠ 0 then (.privilegeError, [])
  else
    match parseMode e.argv with
    | none => (.usageError, [])
    | some m =>
      if e.deviceFound = false then (.deviceNotFound, [.findDevice])
      else if e.configOk = false then (.configError, [.findDevice, .getConfig])
      else deviceSteps e m

/-- Once the four early checks pass, `run` is `deviceSteps`. -/
theorem run_eq_deviceSteps (e : Env) (m : Mode)
    (h0 : e.euid = 0) (h1 : parseMode e.argv = some m)
    (h2 : e.deviceFound = true) (h3 : e.configOk = true) :
    run e = deviceSteps e m := by
  simp [run, h0, h1, h2, h3]

/-- The constructed payload always has length 65. -/
theorem payload_length (m : Mode) : (payload m).length = 65 := by
  cases m <;> rfl

/-- C1: for mode `hq` the constructed payload is
    `[0x03, 0x5a, 0x6b, 0x03, 0x0a, 0x03, 0x40]` followed by 58 zero bytes,
    for mode `ll` it is `[0x03, 0x5a, 0x6b, 0x03, 0x0a, 0x03, 0x20]` followed
    by 58 zero bytes, and both payloads have length exactly 65. -/
theorem payload_bytes :
    payload Mode.hq
      = [0x03, 0x5a, 0x6b, 0x03, 0x0a, 0x03, 0x40] ++ List.replicate 58 0x00 ∧
    payload Mode.ll
      = [0x03, 0x5a, 0x6b, 0x03, 0x0a, 0x03, 0x20] ++ List.replicate 58 0x00 ∧
    (payload Mode.hq).length = 65 ∧ (payload Mode.ll).length = 65 := by
  refine ⟨by decide, by decide, by decide, by decide⟩

/-- C2: every control transfer in any run uses request-type 0x21, request
    code 0x09, value 0x203, index 0x00, and carries the 65-byte payload for
    the parsed mode as its data stage. -/
theorem ctrl_transfer_params (e : Env) (a b c d : Nat) (dat : List Nat)
    (h : Event.ctrlTransfer a b c d dat ∈ (run e).2) :
    a = 0x21 ∧ b = 0x09 ∧ c = 0x203 ∧ d = 0x00 ∧ dat.length = 65 ∧
    ∃ m, parseMode e.argv = some m ∧ dat = payload m := by
  unfold run at h
  split at h
  · simp at h
  split at h
  · simp at h
  next m hm =>
    split at h
    · simp at h
    split at h
    · simp at h
    unfold deviceSteps at h
    repeat' split at h
    all_goals simp at h
    all_goals obtain ⟨ha, hb, hc, hd, hdat⟩ := h
    all_goals exact ⟨ha, hb, hc, hd, by rw [hdat]; exact payload_length m, m, hm, hdat⟩

/-- C2 witness: a concrete run whose trace contains a control transfer, at
    which the theorem yields the fixed parameters. -/
theorem ctrl_transfer_params_witness :
    0x21 = 0x21 ∧ 0x09 = 0x09 ∧ 0x203 = 0x203 ∧ 0x00 = 0x00 ∧
    (payload Mode.hq).length = 65 ∧
    ∃ m, parseMode ["hq"] = some m ∧ payload Mode.hq = payload m :=
  ctrl_transfer_params ⟨0, ["hq"], true, true, false, true, false, 65, true⟩
    0x21 0x09 0x203 0x00 (payload Mode.hq) (by decide)

/-- C3: once execution reaches the transfer (privilege, usage, device,
    configuration and detach checks all passed), the transfer step is
    reported as the fatal transfer failure exactly when a transport error is
    raised or the returned length differs from 65; with a returned length of
    exactly 65 and no transport error, the success message is printed. -/
theorem transfer_failure_iff (e : Env) (m : Mode)
    (h0 : e.euid = 0) (h1 : parseMode e.argv = some m)
    (h2 : e.deviceFound = true) (h3 : e.configOk = true)
    (h4 : e.kernelDriverActive = true → e.detachOk = true) :
    ((run e).1 = Outcome.transferFailure ↔
      (e.transferError = true ∨ e.transferResult ≠ 65)) ∧
    (e.transferError = false → e.transferResult = 65 →
      Event.printSuccess ∈ (run e).2) := by
  rw [run_eq_deviceSteps e m h0 h1 h2 h3]
  unfold deviceSteps
  cases hk : e.kernelDriverActive with
  | true =>
    rw [h4 hk]
    cases he : e.transferError with
    | true => simp
    | false =>
      by_cases hr : e.transferResult = 65
      · cases ha : e.attachOk <;> simp [hr, ha]
      · simp [hr]
  | false =>
    cases he : e.transferError with
    | true => simp
    | false =>
      by_cases hr : e.transferResult = 65 <;> simp [hr]

/-- C3 witness: a concrete run reaching the transfer with no transport error
    but a returned length of 64, at which the theorem reports the transfer
    failure. -/
theorem transfer_failure_iff_witness :
    (run ⟨0, ["ll"], true, true, false, true, false, 64, true⟩).1
      = Outcome.transferFailure :=
  ((transfer_failure_iff ⟨0, ["ll"], true, true, false, true, false, 64, true⟩
    Mode.ll rfl (by decide) rfl rfl (by simp)).1).mpr (Or.inr (by decide))

/-- C4 counterexample: a run that enumerates the device and then exits on a
    transport-level transfer error never reaches `dispose_resources` — the
    held device resources are not released on this error exit path. -/
theorem dispose_skipped_on_error_exit :
    (run ⟨0, ["hq"], true, true, false, true, true, 65, true⟩).1
        = Outcome.transferFailure ∧
    Event.findDevice ∈ (run ⟨0, ["hq"], true, true, false, true, true, 65, true⟩).2 ∧
    Event.disposeResources ∉ (run ⟨0, ["hq"], true, true, false, true, true, 65, true⟩).2 := by
  decide

/-- C4 amended: `usb.util.dispose_resources` is reached exactly on the one
    fully successful path; every error exit (configuration error, detach
    error, transfer failure, reattach error — and trivially the earlier
    checks) terminates the process immediately without releasing the held
    device resources. -/
theorem dispose_iff_success (e : Env) :
    Event.disposeResources ∈ (run e).2 ↔ (run e).1 = Outcome.success := by
  unfold run
  split
  · simp
  split
  · simp
  split
  · simp
  split
  · simp
  unfold deviceSteps
  repeat' split
  all_goals simp

/-- C5: the preconditions are checked in the fixed order privilege, mode
    argument, device enumeration, configuration retrieval, kernel-driver
    detach, and each failure terminates the run at once: the trace stops at
    the failing step, so in particular no control transfer and no driver
    operation beyond the failing one is ever attempted. -/
theorem precondition_order (e : Env) :
    (e.euid ≠ 0 → run e = (Outcome.privilegeError, [])) ∧
    (e.euid = 0 → parseMode e.argv = none → run e = (Outcome.usageError, [])) ∧
    (e.euid = 0 → e.deviceFound = false →
      run e = (Outcome.privilegeError, []) ∨ run e = (Outcome.usageError, []) ∨
      run e = (Outcome.deviceNotFound, [Event.findDevice])) ∧
    (e.euid = 0 → e.deviceFound = true → e.configOk = false →
      run e = (Outcome.privilegeError, []) ∨ run e = (Outcome.usageError, []) ∨
      run e = (Outcome.configError, [Event.findDevice, Event.getConfig])) ∧
    (e.euid = 0 → e.deviceFound = true → e.configOk = true →
      e.kernelDriverActive = true → e.detachOk = false →
      run e = (Outcome.privilegeError, []) ∨ run e = (Outcome.usageError, []) ∨
      run e = (Outcome.detachError,
        [Event.findDevice, Event.getConfig, Event.detachDriver])) := by
  unfold run
  refine ⟨fun h => by simp [h], fun h0 hp => by simp [h0, hp], ?_, ?_, ?_⟩
  · intro h0 hd
    cases hp : parseMode e.argv with
    | none => simp [h0, hp]
    | some m => simp [h0, hp, hd]
  · intro h0 hd hc
    cases hp : parseMode e.argv with
    | none => simp [h0, hp]
    | some m => simp [h0, hp, hd, hc]
  · intro h0 hd hc hk hdet
    cases hp : parseMode e.argv with
    | none => simp [h0, hp]
    | some m => simp [h0, hp, hd, hc, deviceSteps, hk, hdet]

/-- C5 witness: concrete runs hitting each early failure in turn, with every
    hypothesis discharged at the concrete environment. -/
theorem precondition_order_witness :
    run ⟨1, ["hq"], true, true, true, true, false, 65, true⟩
      = (Outcome.privilegeError, []) ∧
    run ⟨0, [], true, true, true, true, false, 65, true⟩
      = (Outcome.usageError, []) ∧
    (run ⟨0, ["hq"], false, true, true, true, false, 65, true⟩
        = (Outcome.privilegeError, []) ∨
     run ⟨0, ["hq"], false, true, true, true, false, 65, true⟩
        = (Outcome.usageError, []) ∨
     run ⟨0, ["hq"], false, true, true, true, false, 65, true⟩
        = (Outcome.deviceNotFound, [Event.findDevice])) ∧
    (run ⟨0, ["hq"], true, false, true, true, false, 65, true⟩
        = (Outcome.privilegeError, []) ∨
     run ⟨0, ["hq"], true, false, true, true, false, 65, true⟩
        = (Outcome.usageError, []) ∨
     run ⟨0, ["hq"], true, false, true, true, false, 65, true⟩
        = (Outcome.configError, [Event.findDevice, Event.getConfig])) ∧
    (run ⟨0, ["hq"], true, true, true, false, false, 65, true⟩
        = (Outcome.privilegeError, []) ∨
     run ⟨0, ["hq"], true, true, true, false, false, 65, true⟩
        = (Outcome.usageError, []) ∨
     run ⟨0, ["hq"], true, true, true, false, false, 65, true⟩
        = (Outcome.detachError,
            [Event.findDevice, Event.getConfig, Event.detachDriver])) :=
  ⟨(precondition_order _).1 (by decide),
   (precondition_order _).2.1 rfl rfl,
   (precondition_order _).2.2.1 rfl rfl,
   (precondition_order _).2.2.2.1 rfl rfl rfl,
   (precondition_order _).2.2.2.2 rfl rfl rfl rfl rfl⟩

/-- C6: the kernel driver is reattached exactly when it was originally
    active (and therefore detached): if the driver was not active, no run
    ever attempts a reattach; if it was active and detached and the transfer
    succeeded, the reattach is attempted after the transfer, a successful
    reattach completes the run, and a failed reattach is the fatal reattach
    error. -/
theorem reattach_iff_detached (e : Env) (m : Mode)
    (h0 : e.euid = 0) (h1 : parseMode e.argv = some m)
    (h2 : e.deviceFound = true) (h3 : e.configOk = true) :
    (e.kernelDriverActive = false → Event.attachDriver ∉ (run e).2) ∧
    (e.kernelDriverActive = true → e.detachOk = true →
      e.transferError = false → e.transferResult = 65 →
      (e.attachOk = true →
        run e = (Outcome.success, [Event.findDevice, Event.getConfig,
          Event.detachDriver, Event.ctrlTransfer 0x21 0x09 0x203 0x00 (payload m),
          Event.printSuccess, Event.attachDriver, Event.disposeResources])) ∧
      (e.attachOk = false →
        run e = (Outcome.reattachError, [Event.findDevice, Event.getConfig,
          Event.detachDriver, Event.ctrlTransfer 0x21 0x09 0x203 0x00 (payload m),
          Event.printSuccess, Event.attachDriver]))) := by
  rw [run_eq_deviceSteps e m h0 h1 h2 h3]
  constructor
  · intro hk
    unfold deviceSteps
    rw [hk]
    by_cases hr : (e.transferError || e.transferResult != 65) = true <;> simp [hr]
  · intro hk hdet he hr
    unfold deviceSteps
    constructor <;> intro ha <;> simp [hk, hdet, he, hr, ha]

/-- C6 witness: with no driver active no reattach appears in the trace, and
    with a driver detached and the transfer succeeded, a failing reattach
    ends the run in the reattach error right after the attach attempt. -/
theorem reattach_iff_detached_witness :
    Event.attachDriver ∉ (run ⟨0, ["hq"], true, true, false, true, false, 65, true⟩).2 ∧
    run ⟨0, ["ll"], true, true, true, true, false, 65, false⟩
      = (Outcome.reattachError, [Event.findDevice, Event.getConfig,
          Event.detachDriver, Event.ctrlTransfer 0x21 0x09 0x203 0x00 (payload Mode.ll),
          Event.printSuccess, Event.attachDriver]) :=
  ⟨(reattach_iff_detached ⟨0, ["hq"], true, true, false, true, false, 65, true⟩
      Mode.hq rfl (by decide) rfl rfl).1 rfl,
   ((reattach_iff_detached ⟨0, ["ll"], true, true, true, true, false, 65, false⟩
      Mode.ll rfl (by decide) rfl rfl).2 rfl rfl rfl rfl).2 rfl⟩

/-- C7: any command line whose mode token is not exactly the string hq or
    the string ll — including a missing token — fails argparse validation
    and the run terminates with the usage error and an empty trace: no
    device enumeration and no device access of any kind is attempted. -/
theorem usage_error_no_device_access (e : Env)
    (h0 : e.euid = 0) (h1 : parseMode e.argv = none) :
    run e = (Outcome.usageError, []) ∧ exitCode (run e).1 ≠ 0 ∧
    (∀ s : String, s ≠ "hq" → s ≠ "ll" → parseMode [s] = none) ∧
    parseMode [] = none := by
  have hrun : run e = (Outcome.usageError, []) := by simp [run, h0, h1]
  refine ⟨hrun, by rw [hrun]; decide, fun s hs1 hs2 => ?_, rfl⟩
  simp [parseMode, hs1, hs2]

/-- C7 witness: the token xx is rejected with an empty trace and a non-zero
    exit status. -/
theorem usage_error_no_device_access_witness :
    run ⟨0, ["xx"], true, true, true, true, false, 65, true⟩
      = (Outcome.usageError, []) ∧
    exitCode (run ⟨0, ["xx"], true, true, true, true, false, 65, true⟩).1 ≠ 0 ∧
    (∀ s : String, s ≠ "hq" → s ≠ "ll" → parseMode [s] = none) ∧
    parseMode [] = none :=
  usage_error_no_device_access ⟨0, ["xx"], true, true, true, true, false, 65, true⟩
    rfl (by decide)

/-- C8: the exit status is 0 exactly when the run is the success outcome,
    and the success outcome holds exactly when every step succeeds: root
    privilege, a valid mode token, device found, configuration retrieved,
    detach succeeding whenever the driver was active, no transport error, a
    transferred length of exactly 65, and reattach succeeding whenever the
    driver was detached. -/
theorem exit_code_zero_iff_success (e : Env) :
    (exitCode (run e).1 = 0 ↔ (run e).1 = Outcome.success) ∧
    ((run e).1 = Outcome.success ↔
      (e.euid = 0 ∧ (∃ m, parseMode e.argv = some m) ∧ e.deviceFound = true ∧
        e.configOk = true ∧ (e.kernelDriverActive = true → e.detachOk = true) ∧
        e.transferError = false ∧ e.transferResult = 65 ∧
        (e.kernelDriverActive = true → e.attachOk = true))) := by
  constructor
  · cases hr : (run e).1 <;> simp [exitCode, hr]
  · unfold run
    by_cases h0 : e.euid = 0
    · cases hp : parseMode e.argv with
      | none => simp [h0, hp]
      | some m =>
        cases hd : e.deviceFound with
        | false => simp [h0, hp, hd]
        | true =>
          cases hc : e.configOk with
          | false => simp [h0, hp, hd, hc]
          | true =>
            unfold deviceSteps
            cases hk : e.kernelDriverActive with
            | true =>
              cases hdet : e.detachOk with
              | false => simp [h0, hp, hd, hc, hk, hdet]
              | true =>
                cases he : e.transferError with
                | true => simp [h0, hp, hd, hc, hk, hdet, he]
                | false =>
                  by_cases hr : e.transferResult = 65
                  · cases ha : e.attachOk <;>
                      simp [h0, hp, hd, hc, hk, hdet, he, hr, ha]
                  · simp [h0, hp, hd, hc, hk, hdet, he, hr]
            | false =>
              cases he : e.transferError with
              | true => simp [h0, hp, hd, hc, hk, he]
              | false =>
                by_cases hr : e.transferResult = 65 <;>
                  simp [h0, hp, hd, hc, hk, he, hr]
    · simp [h0]

/-- C9: when the driver was active and detached and the transfer then fails
    (transport error or a transferred length other than 65), the run ends at
    the transfer failure with a non-zero exit status: no reattach is
    attempted and no resource disposal happens, so the device is left with
    its native driver unbound. -/
theorem transfer_failure_leaves_driver_detached (e : Env) (m : Mode)
    (h0 : e.euid = 0) (h1 : parseMode e.argv = some m)
    (h2 : e.deviceFound = true) (h3 : e.configOk = true)
    (h4 : e.kernelDriverActive = true) (h5 : e.detachOk = true)
    (h6 : e.transferError = true ∨ e.transferResult ≠ 65) :
    run e = (Outcome.transferFailure, [Event.findDevice, Event.getConfig,
      Event.detachDriver, Event.ctrlTransfer 0x21 0x09 0x203 0x00 (payload m)]) ∧
    Event.attachDriver ∉ (run e).2 ∧
    Event.disposeResources ∉ (run e).2 ∧
    exitCode (run e).1 ≠ 0 := by
  have hrun : run e = (Outcome.transferFailure, [Event.findDevice, Event.getConfig,
      Event.detachDriver, Event.ctrlTransfer 0x21 0x09 0x203 0x00 (payload m)]) := by
    rw [run_eq_deviceSteps e m h0 h1 h2 h3]
    unfold deviceSteps
    rcases h6 with h6 | h6 <;> simp [h4, h5, h6]
  refine ⟨hrun, ?_, ?_, ?_⟩ <;> rw [hrun] <;> simp [exitCode]

/-- C9 witness: a concrete run with the driver detached and a short transfer
    of 10 bytes ends at the transfer failure without reattach or disposal. -/
theorem transfer_failure_leaves_driver_detached_witness :
    run ⟨0, ["hq"], true, true, true, true, false, 10, true⟩
      = (Outcome.transferFailure, [Event.findDevice, Event.getConfig,
          Event.detachDriver,
          Event.ctrlTransfer 0x21 0x09 0x203 0x00 (payload Mode.hq)]) ∧
    Event.attachDriver ∉ (run ⟨0, ["hq"], true, true, true, true, false, 10, true⟩).2 ∧
    Event.disposeResources ∉ (run ⟨0, ["hq"], true, true, true, true, false, 10, true⟩).2 ∧
    exitCode (run ⟨0, ["hq"], true, true, true, true, false, 10, true⟩).1 ≠ 0 :=
  transfer_failure_leaves_driver_detached
    ⟨0, ["hq"], true, true, true, true, false, 10, true⟩ Mode.hq
    rfl (by decide) rfl rfl rfl rfl (Or.inr (by decide))

/-- C10: when the transfer succeeds (exactly 65 bytes, success message
    printed) but the subsequent reattach fails, the run ends in the reattach
    error with a non-zero exit status; the control transfer remains in the
    trace and nothing after it undoes it — the device's mode change is not
    rolled back. -/
theorem reattach_failure_after_successful_transfer (e : Env) (m : Mode)
    (h0 : e.euid = 0) (h1 : parseMode e.argv = some m)
    (h2 : e.deviceFound = true) (h3 : e.configOk = true)
    (h4 : e.kernelDriverActive = true) (h5 : e.detachOk = true)
    (h6 : e.transferError = false) (h7 : e.transferResult = 65)
    (h8 : e.attachOk = false) :
    run e = (Outcome.reattachError, [Event.findDevice, Event.getConfig,
      Event.detachDriver, Event.ctrlTransfer 0x21 0x09 0x203 0x00 (payload m),
      Event.printSuccess, Event.attachDriver]) ∧
    exitCode (run e).1 ≠ 0 ∧
    Event.ctrlTransfer 0x21 0x09 0x203 0x00 (payload m) ∈ (run e).2 ∧
    Event.printSuccess ∈ (run e).2 ∧
    ((run e).2.count (Event.ctrlTransfer 0x21 0x09 0x203 0x00 (payload m)) = 1) := by
  have hrun : run e = (Outcome.reattachError, [Event.findDevice, Event.getConfig,
      Event.detachDriver, Event.ctrlTransfer 0x21 0x09 0x203 0x00 (payload m),
      Event.printSuccess, Event.attachDriver]) := by
    rw [run_eq_deviceSteps e m h0 h1 h2 h3]
    unfold deviceSteps
    simp [h4, h5, h6, h7, h8]
  refine ⟨hrun, ?_, ?_, ?_, ?_⟩ <;> rw [hrun]
  · simp [exitCode]
  · simp
  · simp
  · simp [List.count_cons]

/-- C10 witness: a concrete run with a successful 65-byte transfer and a
    failing reattach exits non-zero with the transfer still performed. -/
theorem reattach_failure_after_successful_transfer_witness :
    run ⟨0, ["hq"], true, true, true, true, false, 65, false⟩
      = (Outcome.reattachError, [Event.findDevice, Event.getConfig,
          Event.detachDriver,
          Event.ctrlTransfer 0x21 0x09 0x203 0x00 (payload Mode.hq),
          Event.printSuccess, Event.attachDriver]) ∧
    exitCode (run ⟨0, ["hq"], true, true, true, true, false, 65, false⟩).1 ≠ 0 ∧
    Event.ctrlTransfer 0x21 0x09 0x203 0x00 (payload Mode.hq)
      ∈ (run ⟨0, ["hq"], true, true, true, true, false, 65, false⟩).2 ∧
    Event.printSuccess ∈ (run ⟨0, ["hq"], true, true, true, true, false, 65, false⟩).2 ∧
    ((run ⟨0, ["hq"], true, true, true, true, false, 65, false⟩).2.count
      (Event.ctrlTransfer 0x21 0x09 0x203 0x00 (payload Mode.hq)) = 1) :=
  reattach_failure_after_successful_transfer
    ⟨0, ["hq"], true, true, true, true, false, 65, false⟩ Mode.hq
    rfl (by decide) rfl rfl rfl rfl rfl rfl rfl
